import Mathlib

/-!
Shallow embedding of the myFlix backend (src/index.js, src/models.js):
the user-directory routes, their express-validator checks, the Mongo-style
single-document store operations they perform, and the S3 image-resize
event handler. Definitions follow the source; theorems settle the frozen
claims about the natural-language specification.
-/

namespace MyFlix

/-- A stored user document (src/models.js userSchema): Username, Password,
Email, optional Birthday, and the FavoriteMovies list of movie-id strings. -/
structure User where
  Username : String
  Password : String
  Email : String
  Birthday : Option String
  FavoriteMovies : List String
deriving DecidableEq, Repr

/-- The users collection of the document store, as an ordered list of
documents; Mongo find-one operations act on the first match. -/
abbrev UserStore := List User

/-- One access to the document store, recorded so that theorems can speak
about which paths touch the store. `read` is a find, `write` is a
find-and-mutate (findOneAndUpdate / findOneAndDelete / create). -/
inductive StoreOp where
  | read
  | write
deriving DecidableEq, Repr

/-- `Users.findOne({ Username: uname })`: first document whose Username
matches, or none. -/
def findOne : UserStore → String → Option User
  | [], _ => none
  | u :: rest, uname => if u.Username = uname then some u else findOne rest uname

/-- `Users.findOneAndUpdate({ Username: uname }, ..., { new: true })`:
applies `f` to the first matching document, returning the updated document
(none when no match) together with the new store contents. -/
def findOneAndUpdate (store : UserStore) (uname : String) (f : User → User) :
    Option User × UserStore :=
  match store with
  | [] => (none, [])
  | u :: rest =>
    if u.Username = uname then (some (f u), f u :: rest)
    else ((findOneAndUpdate rest uname f).1, u :: (findOneAndUpdate rest uname f).2)

/-- `Users.findOneAndDelete({ Username: uname })`: removes the first
matching document, returning it (none when no match) and the new store. -/
def findOneAndDelete (store : UserStore) (uname : String) : Option User × UserStore :=
  match store with
  | [] => (none, [])
  | u :: rest =>
    if u.Username = uname then (some u, rest)
    else ((findOneAndDelete rest uname).1, u :: (findOneAndDelete rest uname).2)

/-- Splitting a character list on a separator character, the semantics of
the JavaScript String split with a one-character separator. -/
def splitOnChar (sep : Char) : List Char → List (List Char)
  | [] => [[]]
  | c :: rest =>
    match splitOnChar sep rest with
    | [] => [[]]
    | h :: t => if c = sep then [] :: h :: t else (c :: h) :: t

/-- String version of `splitOnChar`. -/
def splitString (sep : Char) (s : String) : List String :=
  (splitOnChar sep s.data).map String.mk

/-- validator.js isAlphanumeric (default locale): nonempty and every
character in [0-9A-Za-z]. -/
def isAlphanumericStr (s : String) : Bool :=
  !s.data.isEmpty && s.data.all (fun c => c.isAlpha || c.isDigit)

/-- Model of the validator.js isEmail check used by the express-validator
middleware, simplified to its structural core: exactly one at-sign,
nonempty local part, and a domain of at least two nonempty dot-separated
labels. -/
def isEmailStr (s : String) : Bool :=
  match splitString '@' s with
  | [loc, dom] =>
    !loc.data.isEmpty && 2 ≤ (splitString '.' dom).length &&
      (splitString '.' dom).all (fun l => !l.data.isEmpty)
  | _ => false

/-- Model of the check chain on Username with message `Username is required`
and validator isLength min 5, applied to every location instance of the
Username field, in location order. -/
def checkMin5 (vals : List String) : List String :=
  vals.filterMap (fun v => if 5 ≤ v.length then none else some "Username is required")

/-- Model of the check chain on Username with the non-alphanumeric message
and validator isAlphanumeric, applied to every location instance of the
Username field, in location order. -/
def checkAlnum (vals : List String) : List String :=
  vals.filterMap (fun v =>
    if isAlphanumericStr v then none
    else some "Username contains non alphanumeric characters - not allowed.")

/-- Model of the check chain on Password: not-isEmpty, with message
`Password is required`. -/
def checkPassword (pw : String) : List String :=
  if pw = "" then ["Password is required"] else []

/-- Model of the check chain on Email: isEmail, with message
`Email does not appear to be valid`. -/
def checkEmail (email : String) : List String :=
  if isEmailStr email then [] else ["Email does not appear to be valid"]

/-- The JSON request body of POST /users and PUT /users/:Username:
Username, Password, Email, optional Birthday. -/
structure UserBody where
  Username : String
  Password : String
  Email : String
  Birthday : Option String
deriving DecidableEq, Repr

/-- `validationResult(req).array()` for the POST /users middleware chain:
the Username field occurs only in the body. -/
def registerViolations (r : UserBody) : List String :=
  checkMin5 [r.Username] ++ checkAlnum [r.Username] ++
    checkPassword r.Password ++ checkEmail r.Email

/-- `validationResult(req).array()` for the PUT /users/:Username chain:
the Username field occurs in the body and in the URL params, and each
check reports every failing instance (body location before params). -/
def updateViolations (paramUsername : String) (b : UserBody) : List String :=
  checkMin5 [b.Username, paramUsername] ++ checkAlnum [b.Username, paramUsername] ++
    checkPassword b.Password ++ checkEmail b.Email

/-- An HTTP response as produced by the user routes of src/index.js. -/
inductive Response where
  /-- `res.status(422).json({ errors: errors.array() })` -/
  | validationError (errs : List String)
  /-- Status 400 with text body `Permission denied` -/
  | permissionDenied
  /-- Status 400 with text body Username concatenated with `already exists` -/
  | conflict (msg : String)
  /-- `res.status(201).json(user)` -/
  | createdUser (u : User)
  /-- `res.json(user)`, where the document may be null -/
  | jsonUser (u : Option User)
  /-- `res.status(s).send(body)` -/
  | text (status : Nat) (body : String)
deriving DecidableEq, Repr

/-- The HTTP status code of a response. -/
def Response.status : Response → Nat
  | .validationError _ => 422
  | .permissionDenied => 400
  | .conflict _ => 400
  | .createdUser _ => 201
  | .jsonUser _ => 200
  | .text s _ => s

/-- The result of one route handler: the response, the store after the
handler, and the store accesses it performed, in order. -/
abbrev HandlerResult := Response × UserStore × List StoreOp

/-- POST /users (registerUser, src/index.js lines 114-150). Validation
errors return 422 before any store access; then the duplicate-username
pre-check; then create with the bcrypt hash of the password. `hash`
abstracts `Users.hashPassword` (bcrypt.hashSync with salt). -/
def registerUser (hash : String → String) (store : UserStore) (r : UserBody) :
    HandlerResult :=
  if registerViolations r = [] then
    match findOne store r.Username with
    | some _ => (.conflict (r.Username ++ "already exists"), store, [.read])
    | none =>
      let u : User :=
        { Username := r.Username, Password := hash r.Password, Email := r.Email
          Birthday := r.Birthday, FavoriteMovies := [] }
      (.createdUser u, store ++ [u], [.read, .write])
  else (.validationError (registerViolations r), store, [])

/-- GET /users/:Username (getSingleUser, src/index.js lines 179-192).
The validators on this route are declared but their result is never read;
the handler always runs `findOne` and returns `res.json` of its result,
null included. -/
def getSingleUser (store : UserStore) (paramUsername : String) : HandlerResult :=
  (.jsonUser (findOne store paramUsername), store, [.read])

/-- PUT /users/:Username (UpdateUser, src/index.js lines 202-233).
Validation errors return 422; a caller whose JWT username differs from the
URL username gets 400 `Permission denied`; otherwise findOneAndUpdate
$set-replaces Username, Password, Email, Birthday. The source stores
`req.body.Password` itself, without calling hashPassword. -/
def updateUser (store : UserStore) (callerUsername paramUsername : String)
    (b : UserBody) : HandlerResult :=
  if updateViolations paramUsername b = [] then
    if callerUsername = paramUsername then
      let res := findOneAndUpdate store paramUsername (fun u =>
        { Username := b.Username, Password := b.Password, Email := b.Email
          Birthday := b.Birthday, FavoriteMovies := u.FavoriteMovies })
      (.jsonUser res.1, res.2, [.write])
    else (.permissionDenied, store, [])
  else (.validationError (updateViolations paramUsername b), store, [])

/-- POST /users/:Username/movies/:MovieID (addFavoriteMovie, src/index.js
lines 243-260). The validators are declared but never read, and the
authenticated caller is never compared with the URL username; the handler
always runs findOneAndUpdate with `$push: { FavoriteMovies: MovieID }`. -/
def addFavoriteMovie (store : UserStore) (callerUsername paramUsername movieID : String) :
    HandlerResult :=
  let res := findOneAndUpdate store paramUsername (fun u =>
    { u with FavoriteMovies := u.FavoriteMovies ++ [movieID] })
  (.jsonUser res.1, res.2, [.write])

/-- DELETE /users/:Username/movies/:MovieID (deleteFavoriteMovie,
src/index.js lines 270-287). As addFavoriteMovie, with
`$pull: { FavoriteMovies: MovieID }`, which removes every occurrence. -/
def deleteFavoriteMovie (store : UserStore) (callerUsername paramUsername movieID : String) :
    HandlerResult :=
  let res := findOneAndUpdate store paramUsername (fun u =>
    { u with FavoriteMovies := u.FavoriteMovies.filter (fun x => x ≠ movieID) })
  (.jsonUser res.1, res.2, [.write])

/-- DELETE /users/:Username (deleteUser, src/index.js lines 298-315). The
validators are declared but never read and no self-only check exists; the
handler always runs findOneAndDelete and reports 400 `was not found` or
200 `was deleted.`. -/
def deleteUser (store : UserStore) (callerUsername paramUsername : String) :
    HandlerResult :=
  let res := findOneAndDelete store paramUsername
  match res.1 with
  | none => (.text 400 (paramUsername ++ " was not found"), res.2, [.write])
  | some _ => (.text 200 (paramUsername ++ " was deleted."), res.2, [.write])

/-- A stored S3 object, abstracted to its content type and the pixel
dimensions of the image it holds. -/
structure S3Object where
  contentType : String
  width : Nat
  height : Nat
deriving DecidableEq, Repr

/-- The S3 bucket contents: key-to-object pairs, later puts overriding
earlier ones via `s3put`. -/
abbrev S3Store := List (String × S3Object)

/-- One access to the object store performed by the pipeline handler. -/
inductive S3Op where
  | get (key : String)
  | put (key : String)
deriving DecidableEq, Repr

/-- `s3.getObject({ Bucket, Key: k })`. -/
def s3find (st : S3Store) (k : String) : Option S3Object :=
  match st with
  | [] => none
  | (k', o) :: rest => if k' = k then some o else s3find rest k

/-- `s3.putObject({ Bucket, Key: k, ... })`: overwrite-or-insert. -/
def s3put (st : S3Store) (k : String) (o : S3Object) : S3Store :=
  match st with
  | [] => [(k, o)]
  | (k', o') :: rest => if k' = k then (k, o) :: rest else (k', o') :: s3put rest k o

/-- Hexadecimal digit value, as used by percent-decoding. -/
def hexVal (c : Char) : Option Nat :=
  if '0' ≤ c ∧ c ≤ '9' then some (c.toNat - '0'.toNat)
  else if 'a' ≤ c ∧ c ≤ 'f' then some (c.toNat - 'a'.toNat + 10)
  else if 'A' ≤ c ∧ c ≤ 'F' then some (c.toNat - 'A'.toNat + 10)
  else none

/-- Prefix test on character lists, the semantics of the JavaScript
String startsWith. -/
def strStartsWith (s p : String) : Bool :=
  go p.data s.data
where
  go : List Char → List Char → Bool
    | [], _ => true
    | _ :: _, [] => false
    | a :: as, b :: bs => a = b && go as bs

/-- Percent-decoding on the character list, modelling decodeURIComponent
for single-byte sequences (malformed sequences are passed through). -/
def percentDecodeAux : List Char → List Char
  | [] => []
  | '%' :: a :: b :: rest =>
    match hexVal a, hexVal b with
    | some x, some y => Char.ofNat (16 * x + y) :: percentDecodeAux rest
    | _, _ => '%' :: a :: b :: percentDecodeAux rest
  | c :: rest => c :: percentDecodeAux rest

/-- `decodeURIComponent(event.Records[0].s3.object.key.replace(/\+/g, " "))`
(src/index.js lines 480-482): plus signs become spaces, then the key is
percent-decoded. -/
def s3DecodeKey (raw : String) : String :=
  String.mk (percentDecodeAux (raw.data.map (fun c => if c = '+' then ' ' else c)))

/-- sharp `.resize(300, 300, { fit: "inside", withoutEnlargement: true })`
on the pixel dimensions: unchanged when already inside the box, otherwise
scaled down preserving aspect ratio so both dimensions fit. -/
def resizeInside (w h bound : Nat) : Nat × Nat :=
  if w ≤ bound ∧ h ≤ bound then (w, h)
  else if h ≤ w then (bound, h * bound / w) else (w * bound / h, bound)

/-- The structured status a pipeline invocation returns. -/
structure LambdaResponse where
  statusCode : Nat
  body : String
deriving DecidableEq, Repr

/-- Output key derivation: `resized-images/` followed by the last
slash-separated segment of the input key (key.split pop). -/
def outputKey (key : String) : String :=
  "resized-images/" ++ (splitString '/' key).getLastD key

/-- Model of exports.handler (src/index.js lines 476-537): decode the
object key of the event; keys outside `original-images/` are skipped with a 200 result
and no store access; otherwise fetch, resize to fit 300 by 300, and put
the result under `resized-images/` preserving the content type. A failed
fetch maps to the 500 catch branch. -/
def handler (st : S3Store) (rawKey : String) : LambdaResponse × S3Store × List S3Op :=
  let key := s3DecodeKey rawKey
  if strStartsWith key "original-images/" then
    match s3find st key with
    | none =>
      ({ statusCode := 500, body := "Error resizing image: NoSuchKey" }, st, [.get key])
    | some obj =>
      let dims := resizeInside obj.width obj.height 300
      let outKey := outputKey key
      let out : S3Object := { contentType := obj.contentType, width := dims.1, height := dims.2 }
      ({ statusCode := 200
         body := "Successfully resized and uploaded " ++ key ++ " to " ++ outKey },
       s3put st outKey out, [.get key, .put outKey])
  else ({ statusCode := 200, body := "File skipped" }, st, [])

/-! Helper lemmas about the store operations, shared by the theorems. -/

theorem findOneAndUpdate_fst (store : UserStore) (uname : String) (f : User → User)
    (usr : User) (h : findOne store uname = some usr) :
    (findOneAndUpdate store uname f).1 = some (f usr) := by
  induction store with
  | nil => simp [findOne] at h
  | cons u rest ih =>
    by_cases hu : u.Username = uname
    · simp [findOne, hu] at h
      subst h
      simp [findOneAndUpdate, hu]
    · simp [findOne, hu] at h
      simp [findOneAndUpdate, hu, ih h]

theorem findOne_findOneAndUpdate (store : UserStore) (uname : String) (f : User → User)
    (hf : ∀ u, (f u).Username = u.Username) :
    findOne (findOneAndUpdate store uname f).2 uname = (findOne store uname).map f := by
  induction store with
  | nil => simp [findOne, findOneAndUpdate]
  | cons u rest ih =>
    by_cases hu : u.Username = uname
    · simp [findOneAndUpdate, findOne, hu, hf]
    · simp [findOneAndUpdate, findOne, hu, ih]

theorem checkMin5_ne_nil_of_short (vals : List String) (v : String)
    (hv : v ∈ vals) (h : v.length < 5) : checkMin5 vals ≠ [] := by
  intro hnil
  rw [checkMin5, List.filterMap_eq_nil_iff] at hnil
  have := hnil v hv
  simp [Nat.not_le_of_lt h] at this

theorem checkAlnum_ne_nil_of_nonalnum (vals : List String) (v : String)
    (hv : v ∈ vals) (h : isAlphanumericStr v = false) : checkAlnum vals ≠ [] := by
  intro hnil
  rw [checkAlnum, List.filterMap_eq_nil_iff] at hnil
  have := hnil v hv
  simp [h] at this

theorem registerViolations_ne_nil (r : UserBody)
    (h : r.Username.length < 5 ∨ isAlphanumericStr r.Username = false) :
    registerViolations r ≠ [] := by
  rw [registerViolations]
  rcases h with h | h
  · have := checkMin5_ne_nil_of_short [r.Username] r.Username (by simp) h
    simp [List.append_eq_nil]
    intro h1
    exact fun h2 _ _ => this h1
  · have := checkAlnum_ne_nil_of_nonalnum [r.Username] r.Username (by simp) h
    simp [List.append_eq_nil]
    intro _ h2
    exact fun _ _ => this h2

theorem updateViolations_ne_nil (paramU : String) (b : UserBody)
    (h : (paramU.length < 5 ∨ isAlphanumericStr paramU = false) ∨
      (b.Username.length < 5 ∨ isAlphanumericStr b.Username = false)) :
    updateViolations paramU b ≠ [] := by
  rw [updateViolations]
  rcases h with (h | h) | (h | h)
  · have := checkMin5_ne_nil_of_short [b.Username, paramU] paramU (by simp) h
    simp [List.append_eq_nil]
    intro h1
    exact fun _ _ _ => this h1
  · have := checkAlnum_ne_nil_of_nonalnum [b.Username, paramU] paramU (by simp) h
    simp [List.append_eq_nil]
    intro _ h2
    exact fun _ _ => this h2
  · have := checkMin5_ne_nil_of_short [b.Username, paramU] b.Username (by simp) h
    simp [List.append_eq_nil]
    intro h1
    exact fun _ _ _ => this h1
  · have := checkAlnum_ne_nil_of_nonalnum [b.Username, paramU] b.Username (by simp) h
    simp [List.append_eq_nil]
    intro _ h2
    exact fun _ _ => this h2

/-! Concrete inputs used by witnesses and counterexamples. -/

/-- Concrete stand-in for bcrypt.hashSync used only to evaluate the
handlers at concrete inputs; bcrypt itself is salted and external. -/
def bcryptStub (p : String) : String := "$2b$10$stub" ++ p

/-- A stored user document for the username alice123. -/
def aliceStored : User :=
  { Username := "alice123", Password := "$2b$10$stubpw1", Email := "a@b.com"
    Birthday := none, FavoriteMovies := [] }

/-- A well-formed registration body for alice123. -/
def aliceReg : UserBody :=
  { Username := "alice123", Password := "pw1", Email := "a@b.com", Birthday := none }

/-- A well-formed update body carrying a new plaintext password. -/
def aliceNewBody : UserBody :=
  { Username := "alice123", Password := "newpw12", Email := "a@b.com", Birthday := none }

/-- A registration body with an invalid (short, non-alphanumeric) username. -/
def badUserReg : UserBody :=
  { Username := "ab!", Password := "pw1", Email := "a@b.com", Birthday := none }

/-- A registration body for an existing username with an invalid email. -/
def aliceBadEmailReg : UserBody :=
  { Username := "alice123", Password := "pw1", Email := "bad", Birthday := none }

/-- C1: at the concrete failing input, registration stores the bcrypt
hash of the password, but the update route stores the plaintext body
password verbatim in the user record ($set with req.body.Password and no
hashPassword call), so the stored Password field is not always a hash. -/
theorem c1_update_stores_plaintext_password :
    (registerUser bcryptStub [] aliceReg).2.1 =
      [{ Username := "alice123", Password := bcryptStub "pw1", Email := "a@b.com"
         Birthday := none, FavoriteMovies := [] }] ∧
    (findOne (updateUser [aliceStored] "alice123" "alice123" aliceNewBody).2.1
        "alice123").map User.Password = some "newpw12" ∧
    some "newpw12" ≠ some (bcryptStub "newpw12") := by
  refine ⟨by decide, by decide, by decide⟩

/-- C2 counterexample: on the empty store, looking up alice123 does not
fail with a NotFound error; the route responds 200 with a null JSON
body. -/
theorem c2_missing_user_returns_null_200 :
    (getSingleUser [] "alice123").1 = Response.jsonUser none ∧
    ((getSingleUser [] "alice123").1).status = 200 := ⟨rfl, rfl⟩

/-- C2 amended: getSingleUser returns the matching record as JSON when one
exists, and responds 200 with JSON null when none does; it reads the store
once and never mutates it, and never produces a NotFound failure. -/
theorem c2_getByUsername_json_of_findOne (store : UserStore) (uname : String) :
    getSingleUser store uname =
      (Response.jsonUser (findOne store uname), store, [StoreOp.read]) ∧
    ((getSingleUser store uname).1).status = 200 := ⟨rfl, rfl⟩

/-- C3 counterexample: registering the already-stored username alice123
with an invalid email fails with the 422 validation error, not with the
400 duplicate-username conflict, because field validation runs first. -/
theorem c3_duplicate_with_invalid_email_not_conflict :
    (registerUser bcryptStub [aliceStored] aliceBadEmailReg).1 =
      Response.validationError ["Email does not appear to be valid"] ∧
    (registerUser bcryptStub [aliceStored] aliceBadEmailReg).1 ≠
      Response.conflict ("alice123" ++ "already exists") ∧
    ((registerUser bcryptStub [aliceStored] aliceBadEmailReg).1).status = 422 := by
  refine ⟨by decide, by decide, by decide⟩

/-- C3 amended: for a registration request that passes field validation
and whose username already exists in the store, registration fails with
the 400 duplicate-username conflict and the store is unchanged, so no new
record is created. -/
theorem c3_duplicate_username_conflict (hash : String → String) (store : UserStore)
    (r : UserBody) (usr : User) (hval : registerViolations r = [])
    (hdup : findOne store r.Username = some usr) :
    registerUser hash store r =
      (Response.conflict (r.Username ++ "already exists"), store, [StoreOp.read]) := by
  simp [registerUser, hval, hdup]

/-- C3 witness: the amended theorem applied at a concrete store holding
alice123 and a well-formed duplicate registration request. -/
theorem c3_witness :
    registerViolations aliceReg = [] ∧
    findOne [aliceStored] aliceReg.Username = some aliceStored ∧
    registerUser bcryptStub [aliceStored] aliceReg =
      (Response.conflict ("alice123" ++ "already exists"), [aliceStored], [StoreOp.read]) :=
  ⟨by decide, by decide,
    c3_duplicate_username_conflict bcryptStub [aliceStored] aliceReg aliceStored
      (by decide) (by decide)⟩

/-- C4: a registration or update request whose username is shorter than 5
characters or not alphanumeric fails with the 422 validation error
carrying the full computed violations list, the store is unchanged, and no
store read or write is performed. -/
theorem c4_invalid_username_rejected_before_store (hash : String → String)
    (store : UserStore) (r : UserBody) (caller paramU : String) (b : UserBody) :
    (r.Username.length < 5 ∨ isAlphanumericStr r.Username = false →
      registerUser hash store r =
        (Response.validationError (registerViolations r), store, [])) ∧
    ((paramU.length < 5 ∨ isAlphanumericStr paramU = false) ∨
        (b.Username.length < 5 ∨ isAlphanumericStr b.Username = false) →
      updateUser store caller paramU b =
        (Response.validationError (updateViolations paramU b), store, [])) := by
  constructor
  · intro h
    simp [registerUser, registerViolations_ne_nil r h]
  · intro h
    simp [updateUser, updateViolations_ne_nil paramU b h]

/-- C4 witness: the theorem applied to a registration and an update with
the concrete invalid username ab!. -/
theorem c4_witness :
    ("ab!".length < 5 ∨ isAlphanumericStr "ab!" = false) ∧
    registerUser bcryptStub [] badUserReg =
      (Response.validationError (registerViolations badUserReg), [], []) ∧
    updateUser [] "bob12" "ab!" badUserReg =
      (Response.validationError (updateViolations "ab!" badUserReg), [], []) :=
  ⟨by decide,
    (c4_invalid_username_rejected_before_store bcryptStub [] badUserReg "bob12" "ab!"
      badUserReg).1 (by decide),
    (c4_invalid_username_rejected_before_store bcryptStub [] badUserReg "bob12" "ab!"
      badUserReg).2 (Or.inl (by decide))⟩

/-- C5: deleteUser, addFavoriteMovie and deleteFavoriteMovie ignore the
authenticated caller: for any caller b different from the target username
a, each handler behaves exactly as the corresponding self-request, never
responds with the permission-denied failure, and always performs its
store mutation. -/
theorem c5_no_self_check_on_delete_and_favorites (store : UserStore) (b a m : String)
    (h : b ≠ a) :
    (deleteUser store b a = deleteUser store a a ∧
      (deleteUser store b a).1 ≠ Response.permissionDenied ∧
      (deleteUser store b a).2.2 = [StoreOp.write]) ∧
    (addFavoriteMovie store b a m = addFavoriteMovie store a a m ∧
      (addFavoriteMovie store b a m).1 ≠ Response.permissionDenied ∧
      (addFavoriteMovie store b a m).2.2 = [StoreOp.write]) ∧
    (deleteFavoriteMovie store b a m = deleteFavoriteMovie store a a m ∧
      (deleteFavoriteMovie store b a m).1 ≠ Response.permissionDenied ∧
      (deleteFavoriteMovie store b a m).2.2 = [StoreOp.write]) := by
  refine ⟨⟨rfl, ?_, ?_⟩,
    ⟨rfl, by simp [addFavoriteMovie], by simp [addFavoriteMovie]⟩,
    ⟨rfl, by simp [deleteFavoriteMovie], by simp [deleteFavoriteMovie]⟩⟩
  · rcases hfd : (findOneAndDelete store a).1 with _ | u <;> simp [deleteUser, hfd]
  · rcases hfd : (findOneAndDelete store a).1 with _ | u <;> simp [deleteUser, hfd]

/-- C5 witness: a concrete caller distinct from the target on the empty
store, for all three routes. -/
theorem c5_witness :
    ("bob123" : String) ≠ "alice12" ∧
    (deleteUser [] "bob123" "alice12").1 ≠ Response.permissionDenied ∧
    (addFavoriteMovie [] "bob123" "alice12" "m1").1 ≠ Response.permissionDenied ∧
    (deleteFavoriteMovie [] "bob123" "alice12" "m1").1 ≠ Response.permissionDenied :=
  ⟨by decide,
    (c5_no_self_check_on_delete_and_favorites [] "bob123" "alice12" "m1"
      (by decide)).1.2.1,
    (c5_no_self_check_on_delete_and_favorites [] "bob123" "alice12" "m1"
      (by decide)).2.1.2.1,
    (c5_no_self_check_on_delete_and_favorites [] "bob123" "alice12" "m1"
      (by decide)).2.2.2.1⟩

/-- C6: when the username has a stored record, addFavoriteMovie appends
the movie id at the end of the favorites list, a second identical add
appends it again so the list holds it twice, and all previously present
entries are preserved in order. -/
theorem c6_addFavorite_appends_allows_duplicates (store : UserStore)
    (caller uname m : String) (usr : User) (h : findOne store uname = some usr) :
    (addFavoriteMovie store caller uname m).1 =
      Response.jsonUser (some { usr with FavoriteMovies := usr.FavoriteMovies ++ [m] }) ∧
    findOne (addFavoriteMovie store caller uname m).2.1 uname =
      some { usr with FavoriteMovies := usr.FavoriteMovies ++ [m] } ∧
    findOne (addFavoriteMovie
        (addFavoriteMovie store caller uname m).2.1 caller uname m).2.1 uname =
      some { usr with FavoriteMovies := usr.FavoriteMovies ++ [m] ++ [m] } ∧
    (usr.FavoriteMovies ++ [m] ++ [m]).count m = usr.FavoriteMovies.count m + 2 := by
  have hf : ∀ u : User,
      ({ u with FavoriteMovies := u.FavoriteMovies ++ [m] } : User).Username = u.Username :=
    fun u => rfl
  have key : ∀ s : UserStore, findOne (addFavoriteMovie s caller uname m).2.1 uname =
      (findOne s uname).map (fun u => { u with FavoriteMovies := u.FavoriteMovies ++ [m] }) := by
    intro s
    exact findOne_findOneAndUpdate s uname _ hf
  refine ⟨?_, ?_, ?_, ?_⟩
  · simp [addFavoriteMovie]
    rw [findOneAndUpdate_fst store uname _ usr h]
  · rw [key, h]
    rfl
  · rw [key, key, h]
    rfl
  · simp [List.count_append]

/-- C6 witness: two adds of the same movie id for the stored alice123. -/
theorem c6_witness :
    findOne [aliceStored] "alice123" = some aliceStored ∧
    findOne (addFavoriteMovie
        (addFavoriteMovie [aliceStored] "bob123" "alice123" "m1").2.1
        "bob123" "alice123" "m1").2.1 "alice123" =
      some { aliceStored with FavoriteMovies := aliceStored.FavoriteMovies ++ ["m1"] ++ ["m1"] } :=
  ⟨by decide,
    (c6_addFavorite_appends_allows_duplicates [aliceStored] "bob123" "alice123" "m1"
      aliceStored (by decide)).2.2.1⟩

/-- C7: when the username has a stored record, deleteFavoriteMovie removes
every occurrence of the movie id from the favorites list by value; when
the id is not present, the list is unchanged; and the operation responds
200 either way. -/
theorem c7_removeFavorite_removes_all_occurrences (store : UserStore)
    (caller uname m : String) (usr : User) (h : findOne store uname = some usr) :
    (deleteFavoriteMovie store caller uname m).1 =
      Response.jsonUser
        (some { usr with FavoriteMovies := usr.FavoriteMovies.filter (fun x => x ≠ m) }) ∧
    findOne (deleteFavoriteMovie store caller uname m).2.1 uname =
      some { usr with FavoriteMovies := usr.FavoriteMovies.filter (fun x => x ≠ m) } ∧
    m ∉ usr.FavoriteMovies.filter (fun x => x ≠ m) ∧
    (m ∉ usr.FavoriteMovies →
      usr.FavoriteMovies.filter (fun x => x ≠ m) = usr.FavoriteMovies) ∧
    ((deleteFavoriteMovie store caller uname m).1).status = 200 := by
  have hf : ∀ u : User,
      ({ u with FavoriteMovies := u.FavoriteMovies.filter (fun x => x ≠ m) } : User).Username
        = u.Username := fun u => rfl
  have h1 : (deleteFavoriteMovie store caller uname m).1 =
      Response.jsonUser
        (some { usr with FavoriteMovies := usr.FavoriteMovies.filter (fun x => x ≠ m) }) := by
    simp [deleteFavoriteMovie]
    rw [findOneAndUpdate_fst store uname _ usr h]
  refine ⟨h1, ?_, ?_, ?_, ?_⟩
  · have key : findOne (deleteFavoriteMovie store caller uname m).2.1 uname =
        (findOne store uname).map
          (fun u => { u with FavoriteMovies := u.FavoriteMovies.filter (fun x => x ≠ m) }) :=
      findOne_findOneAndUpdate store uname _ hf
    rw [key, h]
    rfl
  · simp
  · intro hm
    refine List.filter_eq_self.mpr ?_
    intro a ha
    simp only [ne_eq, decide_eq_true_eq]
    intro heq
    exact hm (heq ▸ ha)
  · rw [h1]
    rfl

/-- C7 witness: removing a non-present id from the stored alice123 leaves
the favorites list unchanged and responds 200. -/
theorem c7_witness :
    findOne [aliceStored] "alice123" = some aliceStored ∧
    ((deleteFavoriteMovie [aliceStored] "bob123" "alice123" "m1").1).status = 200 ∧
    ("m1" ∉ aliceStored.FavoriteMovies →
      aliceStored.FavoriteMovies.filter (fun x => x ≠ "m1") = aliceStored.FavoriteMovies) :=
  ⟨by decide,
    (c7_removeFavorite_removes_all_occurrences [aliceStored] "bob123" "alice123" "m1"
      aliceStored (by decide)).2.2.2.2,
    (c7_removeFavorite_removes_all_occurrences [aliceStored] "bob123" "alice123" "m1"
      aliceStored (by decide)).2.2.2.1⟩

/-- C8: an update of username a by an authenticated caller b distinct from
a, with a body that passes field validation, fails with the 400
permission-denied response and leaves the store untouched. -/
theorem c8_update_other_user_forbidden (store : UserStore) (b a : String)
    (body : UserBody) (hval : updateViolations a body = []) (hne : b ≠ a) :
    updateUser store b a body = (Response.permissionDenied, store, []) ∧
    ((updateUser store b a body).1).status = 400 := by
  have h1 : updateUser store b a body = (Response.permissionDenied, store, []) := by
    simp [updateUser, hval, hne]
  refine ⟨h1, ?_⟩
  rw [h1]
  rfl

/-- C8 witness: bob12345 attempting to update alice123 with a well-formed
body. -/
theorem c8_witness :
    updateViolations "alice123" aliceNewBody = [] ∧
    ("bob12345" : String) ≠ "alice123" ∧
    updateUser [aliceStored] "bob12345" "alice123" aliceNewBody =
      (Response.permissionDenied, [aliceStored], []) :=
  ⟨by decide, by decide,
    (c8_update_other_user_forbidden [aliceStored] "bob12345" "alice123" aliceNewBody
      (by decide) (by decide)).1⟩

/-- C9: any pipeline event whose decoded object key does not start with
the input namespace original-images/ yields the 200 skipped result, the
object store is unchanged, and no object is fetched or written. -/
theorem c9_pipeline_skips_outside_namespace (st : S3Store) (rawKey : String)
    (h : strStartsWith (s3DecodeKey rawKey) "original-images/" = false) :
    handler st rawKey = ({ statusCode := 200, body := "File skipped" }, st, []) := by
  simp [handler, h]

/-- C9 witness: the concrete key other/x.png outside the input namespace
is skipped on an empty object store. -/
theorem c9_witness :
    strStartsWith (s3DecodeKey "other/x.png") "original-images/" = false ∧
    handler [] "other/x.png" = ({ statusCode := 200, body := "File skipped" }, [], []) :=
  ⟨by decide, c9_pipeline_skips_outside_namespace [] "other/x.png" (by decide)⟩

/-- C10: even for an invalid username, getSingleUser, addFavoriteMovie,
deleteFavoriteMovie and deleteUser never return the 422 validation
response and always perform their store operation, because their declared
validators are never inspected. -/
theorem c10_declared_validators_never_inspected (store : UserStore)
    (caller uname m : String)
    (h : uname.length < 5 ∨ isAlphanumericStr uname = false) :
    (getSingleUser store uname =
        (Response.jsonUser (findOne store uname), store, [StoreOp.read]) ∧
      ((getSingleUser store uname).1).status ≠ 422) ∧
    ((addFavoriteMovie store caller uname m).2.2 = [StoreOp.write] ∧
      ((addFavoriteMovie store caller uname m).1).status ≠ 422) ∧
    ((deleteFavoriteMovie store caller uname m).2.2 = [StoreOp.write] ∧
      ((deleteFavoriteMovie store caller uname m).1).status ≠ 422) ∧
    ((deleteUser store caller uname).2.2 = [StoreOp.write] ∧
      ((deleteUser store caller uname).1).status ≠ 422) := by
  refine ⟨⟨rfl, by simp [getSingleUser, Response.status]⟩,
    ⟨rfl, by simp [addFavoriteMovie, Response.status]⟩,
    ⟨rfl, by simp [deleteFavoriteMovie, Response.status]⟩, ?_⟩
  rcases hfd : (findOneAndDelete store uname).1 with _ | u <;>
    simp [deleteUser, hfd, Response.status]

/-- C10 witness: the invalid username ab! still reaches the store on the
lookup and delete routes. -/
theorem c10_witness :
    ("ab!".length < 5 ∨ isAlphanumericStr "ab!" = false) ∧
    getSingleUser [] "ab!" = (Response.jsonUser none, [], [StoreOp.read]) ∧
    (deleteUser [] "bob123" "ab!").2.2 = [StoreOp.write] :=
  ⟨by decide,
    (c10_declared_validators_never_inspected [] "bob123" "ab!" "m1" (by decide)).1.1,
    (c10_declared_validators_never_inspected [] "bob123" "ab!" "m1" (by decide)).2.2.2.1⟩

end MyFlix
